import Mathlib

/-!
# Verification of the xhooks library (peiofour/xhooks)

Shallow embedding of the React hooks in `src/unnamed/part_003` and proofs of
the specification's claims about them.

Modelling conventions:
* The browser storage objects (`window.localStorage`, `window.sessionStorage`)
  are explicit `Store` values; `Store` also carries a log of all `setItem`
  calls so that "performs a write" is observable.
* `JSON.stringify` / `JSON.parse` are platform functions outside the
  repository; they are modelled as codec parameters `sg : α → String` and
  `ps : String → Option α`, where `ps s = none` models `JSON.parse` throwing.
  A concrete instance restricted to booleans (`jsonStringifyBool`,
  `jsonParseBool`) is used for concrete evaluations.
* React semantics relevant to the code: a `useState` lazy initializer runs
  once at mount; an effect with dependency list `[value]` runs after the
  first render and again after every render in which `value` changed
  (compared with `Object.is`, modelled as decidable equality); calling a
  state setter with a value equal to the current state makes React bail out,
  so the effect does not re-run.
* Code that can throw is embedded in `Except`; total embeddings of the other
  hooks reflect that they have no throwing path.
-/

/-- A browser key-value string store (localStorage or sessionStorage).
`contents` is the association list of entries, newest first; `writes` logs
every `setItem` call in order, so that claims about "performs a store write"
are observable in the model. -/
structure Store where
  contents : List (String × String)
  writes : List (String × String)
deriving DecidableEq, Repr

/-- A store with no entries and no writes performed yet. -/
def Store.empty : Store := ⟨[], []⟩

/-- `storage.getItem(key)`: the most recent value written under `key`, or
`none` when the key is absent (JS `null`). -/
def Store.getItem (s : Store) (k : String) : Option String :=
  (s.contents.find? (fun p => decide (p.1 = k))).map Prod.snd

/-- `storage.setItem(key, v)`: records the new entry (shadowing any older
one) and appends the call to the write log. -/
def Store.setItem (s : Store) (k v : String) : Store :=
  { contents := (k, v) :: s.contents, writes := s.writes ++ [(k, v)] }

/-- The in-memory part of a mounted useLocalStorage / useSessionStorage
instance: the key it was acquired with and its current state value. -/
structure StorageHook (α : Type) where
  key : String
  value : α
deriving DecidableEq, Repr

/-- The `useState` lazy initializer shared by useLocalStorage
(src/unnamed/part_003 lines 139-142) and useSessionStorage (lines 218-221):
`const item = storage.getItem(key); return item ? JSON.parse(item) : initialValue;`.
`item` is truthy exactly when it is neither `null` nor the empty string, so an
empty stored string falls through to `initialValue`. `JSON.parse(item)` is not
wrapped in try/catch in the source, so a parse failure (`ps item = none`)
propagates as an exception, modelled as `Except.error ()`. -/
def storageInit {α : Type} (ps : String → Option α) (st : Store) (key : String)
    (initialValue : α) : Except Unit α :=
  match st.getItem key with
  | none => .ok initialValue
  | some item =>
      if item = "" then .ok initialValue
      else
        match ps item with
        | some v => .ok v
        | none => .error ()

/-- Acquisition (mount) of the storage hook pair: the lazy initializer
computes the initial in-memory value, the first render shows it, and then the
effect with dependency list `[value]` (lines 144-146 / 223-225) runs — React
runs such an effect after the first render as well — writing
`JSON.stringify(value)` under `key`. If the initializer throws, the mount
throws and no write happens. -/
def storageMount {α : Type} (sg : α → String) (ps : String → Option α)
    (key : String) (initialValue : α) (st : Store) :
    Except Unit (StorageHook α × Store) :=
  match storageInit ps st key initialValue with
  | .error e => .error e
  | .ok v => .ok (⟨key, v⟩, st.setItem key (sg v))

/-- `setValue(v)` followed by React committing the update: if `v` is
`Object.is`-equal to the current value, React bails out, the effect with
dependency list `[value]` does not re-run, and no write happens; otherwise the
component re-renders with `v` and the effect writes `JSON.stringify(v)` under
the hook's key (lines 144-146 / 223-225). -/
def storageSetValue {α : Type} [DecidableEq α] (sg : α → String)
    (h : StorageHook α) (v : α) (st : Store) : StorageHook α × Store :=
  if v = h.value then (h, st)
  else ({ h with value := v }, st.setItem h.key (sg v))

/-- Mount of `useLocalStorage(key, initialValue)`
(src/unnamed/part_003 lines 138-149), acting on the localStorage store. -/
def useLocalStorage_mount {α : Type} (sg : α → String) (ps : String → Option α)
    (key : String) (initialValue : α) (st : Store) :
    Except Unit (StorageHook α × Store) :=
  storageMount sg ps key initialValue st

/-- The `setValue` returned by `useLocalStorage`, with its commit cycle
(effect on lines 144-146). -/
def useLocalStorage_setValue {α : Type} [DecidableEq α] (sg : α → String)
    (h : StorageHook α) (v : α) (st : Store) : StorageHook α × Store :=
  storageSetValue sg h v st

/-- Mount of `useSessionStorage(key, initialValue)`
(src/unnamed/part_003 lines 217-228): identical code to useLocalStorage,
acting on the sessionStorage store. -/
def useSessionStorage_mount {α : Type} (sg : α → String) (ps : String → Option α)
    (key : String) (initialValue : α) (st : Store) :
    Except Unit (StorageHook α × Store) :=
  storageMount sg ps key initialValue st

/-- The `setValue` returned by `useSessionStorage`, with its commit cycle
(effect on lines 223-225). -/
def useSessionStorage_setValue {α : Type} [DecidableEq α] (sg : α → String)
    (h : StorageHook α) (v : α) (st : Store) : StorageHook α × Store :=
  storageSetValue sg h v st

/-- `JSON.stringify` restricted to boolean values: a concrete instance of the
platform codec, used for concrete evaluations. -/
def jsonStringifyBool (b : Bool) : String := if b then "true" else "false"

/-- `JSON.parse` restricted to boolean JSON texts; every other text is a
parse error (`JSON.parse` would throw on it). -/
def jsonParseBool (s : String) : Option Bool :=
  if s = "true" then some true
  else if s = "false" then some false
  else none

/-- The browser facts the event-backed hooks can observe at mount time:
window dimensions and scroll offsets, and `window.matchMedia(query).matches`
for any media query string. -/
structure BrowserEnv where
  innerWidth : Int
  innerHeight : Int
  scrollX : Int
  scrollY : Int
  mediaMatches : String → Bool

/-- The observable outcome of mounting an event-backed state hook:
`firstRenderValue` is the state visible synchronously at acquisition (the
`useState` initial value, before any effect runs); `settledValue` is the
state after the mount effect has run; `listenersRegistered` counts the event
listeners the mount effect registers. -/
structure MountResult (α : Type) where
  firstRenderValue : α
  settledValue : α
  listenersRegistered : Nat

/-- Mount of `useWindowSize` (src/unnamed/part_003 lines 257-274): the
`useState` initial value is the current `(window.innerWidth,
window.innerHeight)` read synchronously; the effect only registers one
`resize` listener, leaving the state unchanged. -/
def useWindowSize_mount (env : BrowserEnv) : MountResult (Int × Int) :=
  { firstRenderValue := (env.innerWidth, env.innerHeight),
    settledValue := (env.innerWidth, env.innerHeight),
    listenersRegistered := 1 }

/-- Mount of `useWindowScroll` (lines 234-251): initial state is the current
`(window.scrollX, window.scrollY)`; the effect registers one `scroll`
listener. -/
def useWindowScroll_mount (env : BrowserEnv) : MountResult (Int × Int) :=
  { firstRenderValue := (env.scrollX, env.scrollY),
    settledValue := (env.scrollX, env.scrollY),
    listenersRegistered := 1 }

/-- Mount of `useMousePosition` (lines 176-193): the initial state is the
window center `(window.innerWidth / 2, window.innerHeight / 2)` — a
placeholder, not the pointer position, since no synchronous pointer-position
API exists; the effect registers one `mousemove` listener. -/
def useMousePosition_mount (env : BrowserEnv) : MountResult (Int × Int) :=
  { firstRenderValue := (env.innerWidth / 2, env.innerHeight / 2),
    settledValue := (env.innerWidth / 2, env.innerHeight / 2),
    listenersRegistered := 1 }

/-- Mount of `useMediaQuery(query)` (lines 157-169): the `useState` initial
value is the literal `false`; only the effect, which runs after the first
render, reads `window.matchMedia(query).matches` into the state and registers
one `change` listener on the media query list. -/
def useMediaQuery_mount (env : BrowserEnv) (query : String) : MountResult Bool :=
  { firstRenderValue := false,
    settledValue := env.mediaMatches query,
    listenersRegistered := 1 }

/-- Mount of `useDarkMode` (lines 73-87): the `useState` initial value is the
literal `false`; the effect reads
`window.matchMedia("(prefers-color-scheme: dark)").matches` into the state
and registers no listener at all (it only reads `.matches` once). -/
def useDarkMode_mount (env : BrowserEnv) : MountResult Bool :=
  { firstRenderValue := false,
    settledValue := env.mediaMatches "(prefers-color-scheme: dark)",
    listenersRegistered := 0 }

/-- A mounted `useCopyToClipboard` instance together with its timer world:
`isCopied` is the hook state, `pending` holds the absolute fire times of
every `setTimeout(() => setIsCopied(false), timeout)` that has been scheduled
and neither fired nor been cleared (the source never calls `clearTimeout`, so
entries only leave this list by firing), `clipboard` is the last text written,
and `now` is the current clock. -/
structure CopyHook where
  isCopied : Bool
  pending : List Nat
  clipboard : Option String
  now : Nat
deriving DecidableEq, Repr

/-- Mount of `useCopyToClipboard(timeout)` (src/unnamed/part_003 lines
54-67): `isCopied` starts `false`; the mount effect runs with
`isCopied = false`, so the `if (isCopied)` guard schedules nothing. -/
def useCopyToClipboard_mount : CopyHook :=
  { isCopied := false, pending := [], clipboard := none, now := 0 }

/-- `copyToClipboard(text)` (lines 57-60) followed by the commit cycle:
the clipboard is written and `setIsCopied(true)` is called. If `isCopied` is
already `true`, React bails out (state unchanged) and the effect with
dependency list `[isCopied]` (lines 61-65) does not re-run, so no new timer
is scheduled and the old one keeps running. Otherwise the effect re-runs with
`isCopied = true` and schedules `setTimeout(() => setIsCopied(false),
timeout)`, a reset due at `now + timeout`. Nothing is ever cancelled: the
effect returns no cleanup and the source never calls `clearTimeout`. -/
def CopyHook.copy (h : CopyHook) (timeout : Nat) (text : String) : CopyHook :=
  if h.isCopied then { h with clipboard := some text }
  else
    { h with
        clipboard := some text,
        isCopied := true,
        pending := h.pending ++ [h.now + timeout] }

/-- Advances the clock to time `t`: every scheduled reset due at or before
`t` fires, each one calling `setIsCopied(false)`; after a true-to-false
transition the effect re-runs with `isCopied = false` and the `if (isCopied)`
guard schedules nothing, so the net effect of any due timer is clearing the
flag. -/
def CopyHook.advanceTo (h : CopyHook) (t : Nat) : CopyHook :=
  { h with
      now := t,
      pending := h.pending.filter (fun x => decide (t < x)),
      isCopied :=
        if (h.pending.filter (fun x => decide (x ≤ t))).isEmpty then h.isCopied
        else false }

/-- Release (unmount) of a `useCopyToClipboard` instance: the effect on lines
61-65 returns no cleanup function and the source never calls `clearTimeout`,
so releasing the instance deregisters nothing — every still-pending reset
timer of the released instance keeps running and will call `setIsCopied` on
it when it fires. This function returns those leaked timers. -/
def CopyHook.releaseLeakedTimers (h : CopyHook) : List Nat := h.pending

/-- What the browser offers `useGeolocation` at mount: either the
`navigator.geolocation` object is absent, or its one-shot
`getCurrentPosition` query will succeed with a position of type `P`, or it
will fail with an error of type `E`. -/
inductive GeoOutcome (P E : Type) where
  | unsupported : GeoOutcome P E
  | success : P → GeoOutcome P E
  | failure : E → GeoOutcome P E

/-- The `error` field of the geolocation state: either the
`new Error("GEOLOCATION_NOT_SUPPORTED")` object or the error passed to the
failure callback. -/
inductive GeoError (E : Type) where
  | notSupported : GeoError E
  | positionError : E → GeoError E

/-- The state object returned by `useGeolocation`
(src/unnamed/part_003 lines 94-98). -/
structure GeoState (P E : Type) where
  loading : Bool
  error : Option (GeoError E)
  data : Option P

/-- The `useState` initial value of `useGeolocation` (lines 94-98):
`{ loading: true, error: null, data: null }`. -/
def useGeolocation_initialState (P E : Type) : GeoState P E :=
  { loading := true, error := none, data := none }

/-- Mount of `useGeolocation` (lines 93-128): the mount effect checks
`navigator.geolocation`; when absent it sets the unsupported error state and
returns without calling `getCurrentPosition`; otherwise it calls
`getCurrentPosition` exactly once, whose success callback stores the position
and whose failure callback stores the error. The second component counts the
`getCurrentPosition` calls made. The embedding is total: no path throws. -/
def useGeolocation_mount {P E : Type} (cap : GeoOutcome P E) :
    GeoState P E × Nat :=
  match cap with
  | .unsupported => ({ loading := false, error := some .notSupported, data := none }, 0)
  | .success pos => ({ loading := false, error := none, data := some pos }, 1)
  | .failure err => ({ loading := false, error := some (.positionError err), data := none }, 1)

/-- The state of a `useBoolean` instance. -/
structure BooleanHook where
  value : Bool
deriving DecidableEq, Repr

/-- `useBoolean(initialValue = false)` (src/unnamed/part_003 lines 8-15):
the initial value defaults to `false` when the argument is omitted. -/
def useBoolean (initialValue : Bool := false) : BooleanHook :=
  { value := initialValue }

/-- The `setValue` setter returned by `useBoolean` (line 9). -/
def BooleanHook.setValue (_h : BooleanHook) (v : Bool) : BooleanHook :=
  { value := v }

/-- The `setTrue` callback (line 10): `setValue(true)`. -/
def BooleanHook.setTrue (h : BooleanHook) : BooleanHook := h.setValue true

/-- The `setFalse` callback (line 11): `setValue(false)`. -/
def BooleanHook.setFalse (h : BooleanHook) : BooleanHook := h.setValue false

/-- The `toggle` callback (line 12): `setValue((v) => !v)`. -/
def BooleanHook.toggle (h : BooleanHook) : BooleanHook :=
  { value := !h.value }

theorem Store.getItem_setItem (s : Store) (k v : String) :
    (s.setItem k v).getItem k = some v := by
  simp [Store.getItem, Store.setItem, List.find?]

theorem jsonBool_roundtrip : ∀ b, jsonParseBool (jsonStringifyBool b) = some b := by
  decide

theorem jsonStringifyBool_ne_empty : ∀ b, jsonStringifyBool b ≠ "" := by
  decide

theorem storageMount_ok {α : Type} (sg : α → String) (ps : String → Option α)
    (key : String) (iv : α) (st : Store) (hk : StorageHook α) (st1 : Store)
    (h : storageMount sg ps key iv st = .ok (hk, st1)) :
    hk.key = key ∧ st1 = st.setItem key (sg hk.value) := by
  unfold storageMount at h
  cases hini : storageInit ps st key iv with
  | error e => rw [hini] at h; exact absurd h (by simp)
  | ok v =>
      rw [hini] at h
      cases h
      exact ⟨rfl, rfl⟩

theorem storageMount_getItem {α : Type} (sg : α → String) (ps : String → Option α)
    (key : String) (iv2 v : α) (st : Store)
    (h1 : st.getItem key = some (sg v)) (h2 : sg v ≠ "") (h3 : ps (sg v) = some v) :
    storageMount sg ps key iv2 st = .ok (⟨key, v⟩, st.setItem key (sg v)) := by
  unfold storageMount storageInit
  rw [h1]
  simp [h2, h3]

theorem storage_roundtrip_core {α : Type} [DecidableEq α] (sg : α → String)
    (ps : String → Option α) (hrt : ∀ w, ps (sg w) = some w)
    (hne : ∀ w, sg w ≠ "") (key : String) (iv iv2 v : α)
    (st0 st1 : Store) (hk : StorageHook α)
    (hmnt : storageMount sg ps key iv st0 = .ok (hk, st1)) :
    (storageSetValue sg hk v st1).1.value = v ∧
    (storageMount sg ps key iv2 (storageSetValue sg hk v st1).2).map
      (fun p => p.1.value) = Except.ok v := by
  obtain ⟨hkey, hst1⟩ := storageMount_ok sg ps key iv st0 hk st1 hmnt
  by_cases hv : v = hk.value
  · have hset : storageSetValue sg hk v st1 = (hk, st1) := by
      simp [storageSetValue, hv]
    rw [hset]
    have hget : st1.getItem key = some (sg v) := by
      rw [hst1, ← hv]
      exact Store.getItem_setItem st0 key (sg v)
    rw [storageMount_getItem sg ps key iv2 v st1 hget (hne v) (hrt v)]
    exact ⟨hv.symm, rfl⟩
  · have hset : storageSetValue sg hk v st1 =
        ({ hk with value := v }, st1.setItem hk.key (sg v)) := by
      simp [storageSetValue, hv]
    rw [hset]
    have hget : (st1.setItem hk.key (sg v)).getItem key = some (sg v) := by
      rw [hkey]
      exact Store.getItem_setItem st1 key (sg v)
    rw [storageMount_getItem sg ps key iv2 v _ hget (hne v) (hrt v)]
    exact ⟨rfl, rfl⟩

/-- C1: Round-trip law for the persistent-storage hooks. For every value `v`
of a type whose platform JSON codec round-trips (`ps (sg w) = some w`) and
encodes to a non-empty string, calling `setValue(v)` on a mounted
useLocalStorage (resp. useSessionStorage) instance and then performing a
fresh acquisition with the same key (and any initial value) yields a value
structurally equal to `v`: the persisted encoded entry decodes back to `v`. -/
theorem useLocalStorage_useSessionStorage_roundtrip {α : Type} [DecidableEq α]
    (sg : α → String) (ps : String → Option α)
    (hrt : ∀ w, ps (sg w) = some w) (hne : ∀ w, sg w ≠ "")
    (key : String) (iv iv2 v : α) (st0 st1 : Store) (hk : StorageHook α)
    (hL : useLocalStorage_mount sg ps key iv st0 = .ok (hk, st1))
    (keyS : String) (ivS iv2S vS : α) (stS0 stS1 : Store) (hkS : StorageHook α)
    (hS : useSessionStorage_mount sg ps keyS ivS stS0 = .ok (hkS, stS1)) :
    ((useLocalStorage_setValue sg hk v st1).1.value = v ∧
      (useLocalStorage_mount sg ps key iv2 (useLocalStorage_setValue sg hk v st1).2).map
        (fun p => p.1.value) = Except.ok v) ∧
    ((useSessionStorage_setValue sg hkS vS stS1).1.value = vS ∧
      (useSessionStorage_mount sg ps keyS iv2S (useSessionStorage_setValue sg hkS vS stS1).2).map
        (fun p => p.1.value) = Except.ok vS) :=
  ⟨storage_roundtrip_core sg ps hrt hne key iv iv2 v st0 st1 hk hL,
   storage_roundtrip_core sg ps hrt hne keyS ivS iv2S vS stS0 stS1 hkS hS⟩

/-- Witness for C1: the round-trip law evaluated with the boolean JSON codec,
key "k" (local) and "s" (session), on initially empty stores. -/
theorem useLocalStorage_useSessionStorage_roundtrip_witness :
    ((useLocalStorage_setValue jsonStringifyBool (StorageHook.mk "k" false) true
        (Store.mk [("k", "false")] [("k", "false")])).1.value = true ∧
      (useLocalStorage_mount jsonStringifyBool jsonParseBool "k" true
        (useLocalStorage_setValue jsonStringifyBool (StorageHook.mk "k" false) true
          (Store.mk [("k", "false")] [("k", "false")])).2).map
        (fun p => p.1.value) = Except.ok true) ∧
    ((useSessionStorage_setValue jsonStringifyBool (StorageHook.mk "s" true) false
        (Store.mk [("s", "true")] [("s", "true")])).1.value = false ∧
      (useSessionStorage_mount jsonStringifyBool jsonParseBool "s" false
        (useSessionStorage_setValue jsonStringifyBool (StorageHook.mk "s" true) false
          (Store.mk [("s", "true")] [("s", "true")])).2).map
        (fun p => p.1.value) = Except.ok false) :=
  useLocalStorage_useSessionStorage_roundtrip jsonStringifyBool jsonParseBool
    jsonBool_roundtrip jsonStringifyBool_ne_empty
    "k" false true true Store.empty (Store.mk [("k", "false")] [("k", "false")])
    (StorageHook.mk "k" false) (by rfl)
    "s" true false false Store.empty (Store.mk [("s", "true")] [("s", "true")])
    (StorageHook.mk "s" true) (by rfl)

/-- C2 counterexample: mounting useLocalStorage with key "k" and initial
value `true` on a completely empty store (the key was never written) returns
`true` in memory but immediately performs a store write of the encoded
initial value — the effect with dependency list `[value]` runs after the
first render, before any `setValue` call. This refutes the claim that the
store is left unchanged until the first explicit `setValue`. -/
theorem useLocalStorage_freshMount_writes_cex :
    (useLocalStorage_mount jsonStringifyBool jsonParseBool "k" true Store.empty).map
      (fun p => (p.1.value, p.2.writes)) = Except.ok (true, [("k", "true")]) := by
  rfl

/-- C2 amended: for a key never previously written, a fresh acquisition of
useLocalStorage (or useSessionStorage) with initial value `iv` returns `iv`
as the in-memory value, but does not leave the store unchanged: the mount
effect immediately performs exactly one store write, persisting the encoded
initial value under the key, before any `setValue` call. -/
theorem storage_freshMount_returns_iv_one_write {α : Type} (sg : α → String)
    (ps : String → Option α) (key : String) (iv : α) (st : Store)
    (h : st.getItem key = none) :
    useLocalStorage_mount sg ps key iv st = .ok (⟨key, iv⟩, st.setItem key (sg iv)) ∧
    useSessionStorage_mount sg ps key iv st = .ok (⟨key, iv⟩, st.setItem key (sg iv)) ∧
    (st.setItem key (sg iv)).writes = st.writes ++ [(key, sg iv)] := by
  have hcore : storageMount sg ps key iv st = .ok (⟨key, iv⟩, st.setItem key (sg iv)) := by
    unfold storageMount storageInit
    rw [h]
  exact ⟨hcore, hcore, rfl⟩

/-- Witness for the amended C2: evaluated with the boolean codec on the empty
store under key "k" with initial value `true`. -/
theorem storage_freshMount_returns_iv_one_write_witness :
    useLocalStorage_mount jsonStringifyBool jsonParseBool "k" true Store.empty =
      .ok (⟨"k", true⟩, Store.empty.setItem "k" (jsonStringifyBool true)) ∧
    useSessionStorage_mount jsonStringifyBool jsonParseBool "k" true Store.empty =
      .ok (⟨"k", true⟩, Store.empty.setItem "k" (jsonStringifyBool true)) ∧
    (Store.empty.setItem "k" (jsonStringifyBool true)).writes =
      Store.empty.writes ++ [("k", jsonStringifyBool true)] :=
  storage_freshMount_returns_iv_one_write jsonStringifyBool jsonParseBool "k" true
    Store.empty (by rfl)

/-- C3 counterexample: with the stored entry under key "prefs" being the raw
string `{not json` (not valid JSON), acquisition of useLocalStorage and of
useSessionStorage with initial value `true` does not return the initial
value: the uncaught `JSON.parse` exception propagates out of the `useState`
initializer, modelled as `Except.error ()`. This refutes the claim that the
acquisition does not throw and falls back to the initial value. -/
theorem useLocalStorage_corrupted_cex :
    useLocalStorage_mount jsonStringifyBool jsonParseBool "prefs" true
      (Store.mk [("prefs", "\x7bnot json")] []) = .error () ∧
    useSessionStorage_mount jsonStringifyBool jsonParseBool "prefs" true
      (Store.mk [("prefs", "\x7bnot json")] []) = .error () := by
  exact ⟨rfl, rfl⟩

/-- C3 amended: for every key whose persisted entry is a non-empty string
that is not valid encoded data, acquisition of useLocalStorage (or
useSessionStorage) throws — the `JSON.parse` failure in the `useState`
initializer is not caught and propagates to the caller; the initial value is
not used and no store write happens. -/
theorem storage_corrupted_entry_throws {α : Type} (sg : α → String)
    (ps : String → Option α) (key : String) (iv : α) (st : Store) (s : String)
    (h1 : st.getItem key = some s) (h2 : s ≠ "") (h3 : ps s = none) :
    useLocalStorage_mount sg ps key iv st = .error () ∧
    useSessionStorage_mount sg ps key iv st = .error () := by
  have hcore : storageMount sg ps key iv st = .error () := by
    unfold storageMount storageInit
    rw [h1]
    simp [h2, h3]
  exact ⟨hcore, hcore⟩

/-- Witness for the amended C3: evaluated with the boolean codec and the
unparsable stored entry "oops" under key "cfg". -/
theorem storage_corrupted_entry_throws_witness :
    useLocalStorage_mount jsonStringifyBool jsonParseBool "cfg" false
      (Store.mk [("cfg", "oops")] []) = .error () ∧
    useSessionStorage_mount jsonStringifyBool jsonParseBool "cfg" false
      (Store.mk [("cfg", "oops")] []) = .error () :=
  storage_corrupted_entry_throws jsonStringifyBool jsonParseBool "cfg" false
    (Store.mk [("cfg", "oops")] []) "oops" (by rfl) (by decide) (by rfl)

/-- C5 counterexample: mount useLocalStorage under key "k" with initial value
`false` on the empty store, then call `setValue(true)` twice in a row. The
write log ends as `[("k", "false"), ("k", "true")]`: one write from the mount
effect and one from the first `setValue`; the second, identical `setValue`
call produces no write at all (React bails out on an `Object.is`-equal value
and the effect keyed on `[value]` does not re-run). This refutes the claim
that every `setValue` call performs exactly one store write with no
deduplication. -/
theorem useLocalStorage_setValue_dedup_cex :
    (useLocalStorage_mount jsonStringifyBool jsonParseBool "k" false Store.empty).map
      (fun p =>
        (useLocalStorage_setValue jsonStringifyBool
            (useLocalStorage_setValue jsonStringifyBool p.1 true p.2).1 true
            (useLocalStorage_setValue jsonStringifyBool p.1 true p.2).2).2.writes) =
      Except.ok [("k", "false"), ("k", "true")] := by
  rfl

/-- C5 amended: a `setValue` call on useLocalStorage (or useSessionStorage)
performs exactly one store write when the new value differs from the current
one, but a call with a value equal to the current value is deduplicated:
React bails out, the `[value]`-keyed effect does not re-run, and no write
happens. (The mount effect itself also performs one write.) -/
theorem storage_setValue_write_per_change {α : Type} [DecidableEq α]
    (sg : α → String) (hk : StorageHook α) (v : α) (st : Store) :
    (v = hk.value →
      useLocalStorage_setValue sg hk v st = (hk, st) ∧
      useSessionStorage_setValue sg hk v st = (hk, st)) ∧
    (v ≠ hk.value →
      (useLocalStorage_setValue sg hk v st).2.writes = st.writes ++ [(hk.key, sg v)] ∧
      (useSessionStorage_setValue sg hk v st).2.writes = st.writes ++ [(hk.key, sg v)]) := by
  constructor
  · intro hv
    constructor <;>
      simp [useLocalStorage_setValue, useSessionStorage_setValue, storageSetValue, hv]
  · intro hv
    constructor <;>
      simp [useLocalStorage_setValue, useSessionStorage_setValue, storageSetValue,
        Store.setItem, hv]

/-- Witness for the amended C5: with the boolean codec, a same-value call on
a hook holding `true` writes nothing, and a changed-value call appends
exactly one entry to the write log. -/
theorem storage_setValue_write_per_change_witness :
    (useLocalStorage_setValue jsonStringifyBool (StorageHook.mk "k" true) true Store.empty =
        (StorageHook.mk "k" true, Store.empty) ∧
      useSessionStorage_setValue jsonStringifyBool (StorageHook.mk "k" true) true Store.empty =
        (StorageHook.mk "k" true, Store.empty)) ∧
    ((useLocalStorage_setValue jsonStringifyBool (StorageHook.mk "k" true) false
        Store.empty).2.writes = Store.empty.writes ++ [("k", jsonStringifyBool false)] ∧
      (useSessionStorage_setValue jsonStringifyBool (StorageHook.mk "k" true) false
        Store.empty).2.writes = Store.empty.writes ++ [("k", jsonStringifyBool false)]) :=
  ⟨(storage_setValue_write_per_change jsonStringifyBool (StorageHook.mk "k" true) true
      Store.empty).1 rfl,
   (storage_setValue_write_per_change jsonStringifyBool (StorageHook.mk "k" true) false
      Store.empty).2 (by decide)⟩

/-- C9: for useLocalStorage and useSessionStorage, a persisted raw empty
string under the key is treated exactly like an absent entry: the read path
tests the fetched string for truthiness, the empty string is falsy, and
acquisition therefore returns the caller-supplied initial value (and, like
any mount, persists its encoding). -/
theorem storage_emptyString_treated_as_absent {α : Type} (sg : α → String)
    (ps : String → Option α) (key : String) (iv : α) (st : Store)
    (h : st.getItem key = some "") :
    useLocalStorage_mount sg ps key iv st = .ok (⟨key, iv⟩, st.setItem key (sg iv)) ∧
    useSessionStorage_mount sg ps key iv st = .ok (⟨key, iv⟩, st.setItem key (sg iv)) := by
  have hcore : storageMount sg ps key iv st = .ok (⟨key, iv⟩, st.setItem key (sg iv)) := by
    unfold storageMount storageInit
    rw [h]
    simp
  exact ⟨hcore, hcore⟩

/-- Witness for C9: a store holding the raw empty string under key "k"
yields the initial value `true` on acquisition, just as an absent entry
would. -/
theorem storage_emptyString_treated_as_absent_witness :
    useLocalStorage_mount jsonStringifyBool jsonParseBool "k" true
      (Store.mk [("k", "")] []) =
      .ok (⟨"k", true⟩, (Store.mk [("k", "")] []).setItem "k" (jsonStringifyBool true)) ∧
    useSessionStorage_mount jsonStringifyBool jsonParseBool "k" true
      (Store.mk [("k", "")] []) =
      .ok (⟨"k", true⟩, (Store.mk [("k", "")] []).setItem "k" (jsonStringifyBool true)) :=
  storage_emptyString_treated_as_absent jsonStringifyBool jsonParseBool "k" true
    (Store.mk [("k", "")] []) (by rfl)

/-- C6 counterexample: in a browser whose media query "(min-width: 600px)"
currently matches, a freshly mounted useMediaQuery instance shows `false` at
first render — the snapshot of `matchMedia(query).matches` is only taken in
the mount effect, after the first render, so the first observable value is
not the current browser-observable value. Moreover useDarkMode registers
zero listeners, not exactly one. This refutes the claim as stated for every
event-backed hook. -/
theorem useMediaQuery_useDarkMode_delay_cex :
    (useMediaQuery_mount (BrowserEnv.mk 800 600 0 0 (fun _ => true))
        "(min-width: 600px)").firstRenderValue = false ∧
    (BrowserEnv.mk 800 600 0 0 (fun _ => true)).mediaMatches "(min-width: 600px)" = true ∧
    (useDarkMode_mount (BrowserEnv.mk 800 600 0 0 (fun _ => true))).listenersRegistered = 0 :=
  ⟨rfl, rfl, rfl⟩

/-- C6 amended: useWindowSize and useWindowScroll snapshot the current
browser-observable value synchronously at acquisition and register exactly
one listener; useMousePosition registers exactly one listener and
synchronously snapshots the window-center placeholder (no synchronous
pointer position exists); useMediaQuery and useDarkMode instead show the
hardcoded `false` at first render and only obtain the real matchMedia value
after the mount effect runs, with useMediaQuery registering exactly one
change listener and useDarkMode registering none. -/
theorem eventHooks_snapshot_and_listeners (env : BrowserEnv) (q : String) :
    (useWindowSize_mount env).firstRenderValue = (env.innerWidth, env.innerHeight) ∧
    (useWindowSize_mount env).listenersRegistered = 1 ∧
    (useWindowScroll_mount env).firstRenderValue = (env.scrollX, env.scrollY) ∧
    (useWindowScroll_mount env).listenersRegistered = 1 ∧
    (useMousePosition_mount env).firstRenderValue =
      (env.innerWidth / 2, env.innerHeight / 2) ∧
    (useMousePosition_mount env).listenersRegistered = 1 ∧
    (useMediaQuery_mount env q).firstRenderValue = false ∧
    (useMediaQuery_mount env q).settledValue = env.mediaMatches q ∧
    (useMediaQuery_mount env q).listenersRegistered = 1 ∧
    (useDarkMode_mount env).firstRenderValue = false ∧
    (useDarkMode_mount env).settledValue =
      env.mediaMatches "(prefers-color-scheme: dark)" ∧
    (useDarkMode_mount env).listenersRegistered = 0 :=
  ⟨rfl, rfl, rfl, rfl, rfl, rfl, rfl, rfl, rfl, rfl, rfl, rfl⟩

/-- C4 (code bug): scenario `copy("x")` at t = 0 and `copy("y")` at
t = 1000 with timeoutMs = 2000. The source never calls `clearTimeout` and
the second `copy` leaves `isCopied` at `true`, so React bails out and the
`[isCopied]`-keyed effect does not re-run: no new reset is scheduled and the
stale timer from the first call stays pending. The single pending reset
fires at t = 2000 — timeoutMs after the FIRST call — and indeed at t = 2000
the flag is already back to `false`, 1000 ms before the claimed reset time
of t = 3000. -/
theorem useCopyToClipboard_stale_timer :
    (((useCopyToClipboard_mount.copy 2000 "x").advanceTo 1000).copy 2000 "y").pending =
      [2000] ∧
    (((useCopyToClipboard_mount.copy 2000 "x").advanceTo 1000).copy 2000 "y").isCopied =
      true ∧
    ((((useCopyToClipboard_mount.copy 2000 "x").advanceTo 1000).copy 2000 "y").advanceTo
        2000).isCopied = false :=
  ⟨rfl, rfl, rfl⟩

/-- C7 (code bug): a useCopyToClipboard instance that performed `copy("x")`
at t = 0 with timeoutMs = 2000 and is released at t = 500 leaves its reset
timer pending: the effect on lines 61-65 returns no cleanup function and the
source never calls `clearTimeout`, so the timer of the released instance
survives teardown and will call `setIsCopied(false)` on the released
instance when it fires at t = 2000. -/
theorem useCopyToClipboard_release_leak :
    ((useCopyToClipboard_mount.copy 2000 "x").advanceTo 500).releaseLeakedTimers =
      [2000] :=
  rfl

/-- C8: when the geolocation capability is absent, useGeolocation reports
the failure through its own returned state — loading `false`, error set to
the GEOLOCATION_NOT_SUPPORTED error, data `null` — without throwing (the
embedding is total), and makes no `getCurrentPosition` call; a geolocation
failure is surfaced once through the state; and on every outcome
`getCurrentPosition` is called at most once, so nothing is retried. -/
theorem useGeolocation_unsupported_state_no_retry {P E : Type} :
    (useGeolocation_mount (GeoOutcome.unsupported : GeoOutcome P E)).1.loading = false ∧
    (useGeolocation_mount (GeoOutcome.unsupported : GeoOutcome P E)).1.error =
      some GeoError.notSupported ∧
    (useGeolocation_mount (GeoOutcome.unsupported : GeoOutcome P E)).1.data = none ∧
    (useGeolocation_mount (GeoOutcome.unsupported : GeoOutcome P E)).2 = 0 ∧
    (∀ e : E,
      (useGeolocation_mount (GeoOutcome.failure e : GeoOutcome P E)).1.error =
        some (GeoError.positionError e) ∧
      (useGeolocation_mount (GeoOutcome.failure e : GeoOutcome P E)).2 = 1) ∧
    (∀ cap : GeoOutcome P E, (useGeolocation_mount cap).2 ≤ 1) := by
  refine ⟨rfl, rfl, rfl, rfl, fun e => ⟨rfl, rfl⟩, fun cap => ?_⟩
  cases cap <;> simp [useGeolocation_mount]

/-- C10: for every useBoolean state, applying `toggle` twice returns the
state to its previous value (toggle is an involution), `setTrue` always
yields `true` and `setFalse` always yields `false` regardless of the prior
state, and the initial value defaults to `false` when the argument is
omitted. -/
theorem useBoolean_laws :
    (∀ h : BooleanHook, h.toggle.toggle.value = h.value) ∧
    (∀ h : BooleanHook, h.setTrue.value = true) ∧
    (∀ h : BooleanHook, h.setFalse.value = false) ∧
    (useBoolean).value = false := by
  refine ⟨fun h => ?_, fun h => rfl, fun h => rfl, rfl⟩
  simp [BooleanHook.toggle]
